import Mathlib

/-!
Verification of the tutoring-administration web app (students, sessions,
financial ledger, approval gating, WhatsApp reminder dispatch).

The embedding is shallow: each TypeScript / SQL unit that the claims touch is
translated into an executable Lean definition operating on explicit state.
Monetary amounts are modelled as exact rationals (the database stores them as
DECIMAL(10,2) and the specification reasons about exact decimal values);
timestamps are integers (milliseconds since epoch, matching
`Date.prototype.getTime`); database tables are lists of rows; the outcome of
an external HTTP call is an explicit oracle parameter.
-/

/-- A row of `public.ledger_entries`.  The client code compares and stores the
`type` enum (`SESSION_CHARGE` / `PAYMENT_CONFIRMATION` / `ADJUSTMENT`) as a
string, so `type` is embedded as `String`; `amount DECIMAL(10,2)` is modelled
as an exact rational; `created_at` is a millisecond timestamp; `created_by`
references `auth.users(id)` and is nullable. -/
structure LedgerEntry where
  id : String
  student_id : String
  type : String
  amount : ℚ
  reference : Option String
  image_url : Option String
  created_at : ℤ
  created_by : Option String
deriving DecidableEq, Repr

/-- A row of `public.students` (fields used by the client pages). -/
structure Student where
  id : String
  first_name : String
  last_name : String
  price_per_hour : ℚ
  phone_e164 : Option String
  is_active : Bool
deriving DecidableEq, Repr

/-- A row of `public.sessions` (fields used by the client pages and the
reminder dispatch function; the WhatsApp status columns are the ones added by
the later migration). -/
structure Session where
  id : String
  student_id : String
  status : String
  scheduled_start_at : ℤ
  scheduled_end_at : ℤ
  actual_start_at : Option ℤ
  actual_end_at : Option ℤ
  zoom_meeting_id : Option String
  zoom_join_url : Option String
  zoom_start_url : Option String
  notes : Option String
  created_by : Option String
  whatsapp_notification_status : String
  whatsapp_last_error : Option String
deriving DecidableEq, Repr

/-- `public.get_student_balance(student_uuid UUID)`:
`SELECT COALESCE(SUM(amount), 0) FROM public.ledger_entries WHERE
student_id = student_uuid`.  SQL `SUM` over the empty selection is `NULL`,
and `COALESCE` turns that into `0`; over a list the same computation is the
sum of the `amount` column of the matching rows, which is `0` for `[]`.
The function is `STABLE` (read-only): it is a pure function of the table. -/
def get_student_balance (ledger_entries : List LedgerEntry) (student_uuid : String) : ℚ :=
  ((ledger_entries.filter (fun e => e.student_id == student_uuid)).map (fun e => e.amount)).sum

/-- A ledger row carrying just an amount for a given student, used to state
the balance claims over an arbitrary finite sequence of amounts. -/
def entryWithAmount (sid : String) (a : ℚ) : LedgerEntry :=
  { id := "", student_id := sid, type := "ADJUSTMENT", amount := a,
    reference := none, image_url := none, created_at := 0, created_by := none }

/-- C2: for every student identifier, `get_student_balance` returns the sum of
the `amount` column over exactly the ledger rows whose `student_id` matches;
in particular when no row matches (including when the identifier names no
existing student) it returns exactly `0` rather than an error.  The function
is embedded as a pure (read-only) function of the table, so the call cannot
modify state. -/
theorem get_student_balance_spec (ledger_entries : List LedgerEntry) (student_uuid : String) :
    get_student_balance ledger_entries student_uuid
      = ((ledger_entries.filter (fun e => e.student_id == student_uuid)).map
          (fun e => e.amount)).sum
    ∧ (ledger_entries.filter (fun e => e.student_id == student_uuid) = [] →
        get_student_balance ledger_entries student_uuid = 0) := by
  refine ⟨rfl, fun h => ?_⟩
  simp [get_student_balance, h]

/-- Witness for C2: a concrete table holding only another student's entry;
the balance of the queried (absent) student is exactly `0`. -/
theorem get_student_balance_spec_witness :
    (([entryWithAmount "s1" 10].filter (fun e => e.student_id == "s2") = []) →
      get_student_balance [entryWithAmount "s1" 10] "s2" = 0) ∧
    get_student_balance [entryWithAmount "s1" 10] "s2" = 0 := by
  have h := get_student_balance_spec [entryWithAmount "s1" 10] "s2"
  exact ⟨h.2, h.2 (by decide)⟩

/-- C3: over any finite sequence of amounts `a1..an` recorded for the same
student, the computed balance is the exact rational sum `a1 + ... + an`
(amounts are exact `DECIMAL(10,2)` values, embedded as rationals, so there is
no rounding drift), and on the spec's example `[+100.00, -37.50, -10.00]` the
balance is exactly `52.50`. -/
theorem get_student_balance_exact_sum (sid : String) (amounts : List ℚ) :
    get_student_balance (amounts.map (entryWithAmount sid)) sid = amounts.sum
    ∧ get_student_balance
        [entryWithAmount "stu" 100, entryWithAmount "stu" (-375/10),
         entryWithAmount "stu" (-10)] "stu" = 525/10 := by
  constructor
  · unfold get_student_balance
    induction amounts with
    | nil => simp
    | cons a rest ih =>
      simp only [List.map_cons, List.filter_cons, entryWithAmount, beq_self_eq_true,
        List.map_cons, List.sum_cons]
      simpa [entryWithAmount] using congrArg (fun q => a + q) ih
  · norm_num [get_student_balance, entryWithAmount]

/-- Witness for C3 (the theorem's only hypothesis-shaped parts are universally
quantified inputs; instantiate at a concrete list and check the sum). -/
theorem get_student_balance_exact_sum_witness :
    get_student_balance ([(100 : ℚ), -375/10, -10].map (entryWithAmount "stu")) "stu"
      = 525/10 := by
  have h := (get_student_balance_exact_sum "stu" [(100 : ℚ), -375/10, -10]).1
  rw [h]
  norm_num

/-! ## Ledger page (`src/pages/Ledger.tsx`) -/

/-- The browser `File` object as far as `handleImageChange` inspects it:
MIME `type` and `size` in bytes. -/
structure UploadFile where
  name : String
  type : String
  size : ℕ
deriving DecidableEq, Repr

/-- The Ledger page's `formData` state.  `amount` holds the result of
`parseFloat(formData.amount)` at submit time: `none` models `NaN` (a string
that does not parse to a number), `some v` the parsed value. -/
structure LedgerFormData where
  student_id : String
  type : String
  amount : Option ℚ
  reference : String
  isAdjustmentNegative : Bool
  imageFile : Option UploadFile
  existingImageUrl : Option String
deriving DecidableEq, Repr

/-- `handleImageChange` (Ledger.tsx): validate the selected file client-side.
A file whose MIME type does not start with `image/` is rejected, then a file
larger than 5 MB (`5 * 1024 * 1024` bytes) is rejected; only an accepted file
is written into `formData.imageFile`.  The function makes no network call in
any branch. -/
def handleImageChange (formData : LedgerFormData) (file : Option UploadFile) :
    LedgerFormData :=
  match file with
  | none => formData
  | some f =>
    if ¬ (f.type.startsWith "image/") then formData
    else if f.size > 5 * 1024 * 1024 then formData
    else { formData with imageFile := some f }

/-- The sign application block of `handleSubmit` (Ledger.tsx): negative for
`SESSION_CHARGE`, positive for `PAYMENT_CONFIRMATION`, negated exactly when
the negative-adjustment toggle is set for `ADJUSTMENT`, otherwise kept. -/
def ledgerFinalAmount (type : String) (isAdjustmentNegative : Bool) (amountValue : ℚ) : ℚ :=
  if type == "SESSION_CHARGE" then -amountValue
  else if type == "PAYMENT_CONFIRMATION" then amountValue
  else if type == "ADJUSTMENT" then
    (if isAdjustmentNegative then -amountValue else amountValue)
  else amountValue

/-- Result of one `handleSubmit` invocation: the resulting `ledger_entries`
table and the list of files for which a storage upload request was sent. -/
structure LedgerSubmitResult where
  db : List LedgerEntry
  uploads : List UploadFile
deriving DecidableEq, Repr

/-- The table write at the end of `handleSubmit` (Ledger.tsx).  `entryData`
carries exactly `student_id`, `type`, `amount`, `reference`
(`formData.reference || null`) and `image_url`
(`imageUrl || formData.existingImageUrl || null`).  Editing issues
`update(entryData).eq("id", editingEntry.id)`, which rewrites those five
columns of the matching row(s) and nothing else; creating adds
`created_by = user?.id || null` and inserts a fresh row (`id`/`created_at`
are database-generated, passed here as `newId`/`now`). -/
def ledgerWrite (formData : LedgerFormData) (editingEntry : Option LedgerEntry)
    (user : Option String) (db : List LedgerEntry) (finalAmount : ℚ)
    (imageUrl : Option String) (now : ℤ) (newId : String) : List LedgerEntry :=
  let reference := if formData.reference == "" then none else some formData.reference
  let image_url := match imageUrl with
    | some u => some u
    | none => formData.existingImageUrl
  match editingEntry with
  | some editing =>
    db.map (fun e =>
      if e.id == editing.id then
        { e with student_id := formData.student_id, type := formData.type,
                 amount := finalAmount, reference := reference, image_url := image_url }
      else e)
  | none =>
    db ++ [{ id := newId, student_id := formData.student_id, type := formData.type,
             amount := finalAmount, reference := reference, image_url := image_url,
             created_at := now, created_by := user }]

/-- `handleSubmit` (Ledger.tsx).  Validation first: an amount that is `NaN` or
not strictly positive returns before any network call.  Then the sign rule is
applied, the receipt image (if any) is uploaded — `uploadResult` is the
storage oracle, `none` meaning the upload errored, in which case the handler
returns without touching the table — and finally the entry is updated or
inserted via `ledgerWrite`. -/
def ledgerHandleSubmit (formData : LedgerFormData) (editingEntry : Option LedgerEntry)
    (user : Option String) (db : List LedgerEntry) (uploadResult : Option String)
    (now : ℤ) (newId : String) : LedgerSubmitResult :=
  match formData.amount with
  | none => { db := db, uploads := [] }
  | some amountValue =>
    if amountValue ≤ 0 then { db := db, uploads := [] }
    else
      let finalAmount := ledgerFinalAmount formData.type formData.isAdjustmentNegative amountValue
      match formData.imageFile with
      | some f =>
        (match uploadResult with
        | none => { db := db, uploads := [f] }
        | some url =>
          { db := ledgerWrite formData editingEntry user db finalAmount (some url) now newId,
            uploads := [f] })
      | none =>
        { db := ledgerWrite formData editingEntry user db finalAmount none now newId,
          uploads := [] }

/-- C6: a file selected for a ledger-entry receipt upload whose MIME type is
not an image type, or whose size exceeds 5 MB, is rejected client-side:
`handleImageChange` leaves the form unchanged (in particular the file never
enters `formData.imageFile`), and a submit of a form without a selected file
sends no upload request. -/
theorem handleImageChange_rejects_bad_files
    (formData : LedgerFormData) (f : UploadFile)
    (editingEntry : Option LedgerEntry) (user : Option String)
    (db : List LedgerEntry) (uploadResult : Option String) (now : ℤ) (newId : String)
    (hno : formData.imageFile = none) :
    (¬ f.type.startsWith "image/" → handleImageChange formData (some f) = formData)
    ∧ (f.size > 5 * 1024 * 1024 → handleImageChange formData (some f) = formData)
    ∧ (ledgerHandleSubmit formData editingEntry user db uploadResult now newId).uploads
        = [] := by
  refine ⟨fun hbad => ?_, fun hbig => ?_, ?_⟩
  · simp [handleImageChange, hbad]
  · by_cases htype : f.type.startsWith "image/"
    · simp [handleImageChange, htype, hbig]
    · simp [handleImageChange, htype]
  · unfold ledgerHandleSubmit
    cases hamt : formData.amount with
    | none => rfl
    | some a =>
      by_cases hle : a ≤ 0
      · simp [hle]
      · simp [hle, hno]

/-- Witness for C6: a 6 MB PDF is rejected and a file-less submit uploads
nothing. -/
theorem handleImageChange_rejects_bad_files_witness :
    (¬ ("application/pdf".startsWith "image/") →
      handleImageChange
        { student_id := "s", type := "ADJUSTMENT", amount := some 1, reference := "",
          isAdjustmentNegative := false, imageFile := none, existingImageUrl := none }
        (some { name := "a.pdf", type := "application/pdf", size := 6 * 1024 * 1024 })
      = { student_id := "s", type := "ADJUSTMENT", amount := some 1, reference := "",
          isAdjustmentNegative := false, imageFile := none, existingImageUrl := none })
    ∧ ((6 * 1024 * 1024 : ℕ) > 5 * 1024 * 1024 →
      handleImageChange
        { student_id := "s", type := "ADJUSTMENT", amount := some 1, reference := "",
          isAdjustmentNegative := false, imageFile := none, existingImageUrl := none }
        (some { name := "a.pdf", type := "application/pdf", size := 6 * 1024 * 1024 })
      = { student_id := "s", type := "ADJUSTMENT", amount := some 1, reference := "",
          isAdjustmentNegative := false, imageFile := none, existingImageUrl := none })
    ∧ (ledgerHandleSubmit
        { student_id := "s", type := "ADJUSTMENT", amount := some 1, reference := "",
          isAdjustmentNegative := false, imageFile := none, existingImageUrl := none }
        none none [] none 0 "n").uploads = [] :=
  handleImageChange_rejects_bad_files
    { student_id := "s", type := "ADJUSTMENT", amount := some 1, reference := "",
      isAdjustmentNegative := false, imageFile := none, existingImageUrl := none }
    { name := "a.pdf", type := "application/pdf", size := 6 * 1024 * 1024 }
    none none [] none 0 "n" rfl

/-- C7: an amount that does not parse (`NaN`) or is not strictly positive is
rejected before any network call (table untouched, no upload sent); an
accepted amount is stored with its sign given by the entry type — negative
for `SESSION_CHARGE`, positive for `PAYMENT_CONFIRMATION`, negated exactly
when the negative-adjustment toggle is set for `ADJUSTMENT` — both when a new
entry is inserted and when an existing entry is edited. -/
theorem ledgerHandleSubmit_amount_validation_and_sign
    (formData : LedgerFormData) (editingEntry : Option LedgerEntry)
    (user : Option String) (db : List LedgerEntry) (uploadResult : Option String)
    (now : ℤ) (newId : String) (a : ℚ) :
    (formData.amount = none →
      ledgerHandleSubmit formData editingEntry user db uploadResult now newId
        = { db := db, uploads := [] })
    ∧ (formData.amount = some a → a ≤ 0 →
      ledgerHandleSubmit formData editingEntry user db uploadResult now newId
        = { db := db, uploads := [] })
    ∧ (∀ neg : Bool,
        ledgerFinalAmount "SESSION_CHARGE" neg a = -a
        ∧ ledgerFinalAmount "PAYMENT_CONFIRMATION" neg a = a
        ∧ ledgerFinalAmount "ADJUSTMENT" true a = -a
        ∧ ledgerFinalAmount "ADJUSTMENT" false a = a)
    ∧ (formData.amount = some a → 0 < a → formData.imageFile = none →
        editingEntry = none →
        (ledgerHandleSubmit formData editingEntry user db uploadResult now newId).db
          = db ++ [{ id := newId, student_id := formData.student_id,
                     type := formData.type,
                     amount := ledgerFinalAmount formData.type
                       formData.isAdjustmentNegative a,
                     reference := if formData.reference == "" then none
                       else some formData.reference,
                     image_url := formData.existingImageUrl,
                     created_at := now, created_by := user }])
    ∧ (∀ editing : LedgerEntry, formData.amount = some a → 0 < a →
        formData.imageFile = none → editingEntry = some editing →
        (ledgerHandleSubmit formData editingEntry user db uploadResult now newId).db
          = db.map (fun e =>
              if e.id == editing.id then
                { e with student_id := formData.student_id, type := formData.type,
                         amount := ledgerFinalAmount formData.type
                           formData.isAdjustmentNegative a,
                         reference := if formData.reference == "" then none
                           else some formData.reference,
                         image_url := formData.existingImageUrl }
              else e)) := by
  refine ⟨fun hnan => ?_, fun hsome hle => ?_, fun neg => ?_, fun hsome hpos hno hed => ?_,
    fun editing hsome hpos hno hed => ?_⟩
  · unfold ledgerHandleSubmit
    rw [hnan]
  · unfold ledgerHandleSubmit
    rw [hsome]
    simp [hle]
  · refine ⟨by simp [ledgerFinalAmount], by simp [ledgerFinalAmount], ?_, ?_⟩ <;>
      simp [ledgerFinalAmount]
  · unfold ledgerHandleSubmit
    rw [hsome]
    simp only [not_le.mpr hpos, if_neg (not_le.mpr hpos).elim]
    simp [not_le.mpr hpos, hno, hed, ledgerWrite]
  · unfold ledgerHandleSubmit
    rw [hsome]
    simp [not_le.mpr hpos, hno, hed, ledgerWrite]

/-- Witness for C7: a `SESSION_CHARGE` of 37.50 is inserted as −37.50, and a
zero amount is rejected with no write. -/
theorem ledgerHandleSubmit_amount_validation_and_sign_witness :
    (ledgerHandleSubmit
      { student_id := "s", type := "SESSION_CHARGE", amount := some (375/10),
        reference := "", isAdjustmentNegative := false, imageFile := none,
        existingImageUrl := none } none (some "u") [] none 7 "n1").db
      = [{ id := "n1", student_id := "s", type := "SESSION_CHARGE",
           amount := ledgerFinalAmount "SESSION_CHARGE" false (375/10),
           reference := none, image_url := none, created_at := 7,
           created_by := some "u" }] := by
  have h := (ledgerHandleSubmit_amount_validation_and_sign
    { student_id := "s", type := "SESSION_CHARGE", amount := some (375/10),
      reference := "", isAdjustmentNegative := false, imageFile := none,
      existingImageUrl := none } none (some "u") [] none 7 "n1" (375/10)).2.2.2.1
    rfl (by norm_num) rfl rfl
  simpa using h

/-- C10: an edit of an existing ledger entry leaves the table expressible as a
row-wise rewrite that can change only `student_id`, `type`, `amount`,
`reference` and `image_url`: every row keeps its `id`, `created_at` and
`created_by` (so `created_by` is never reassigned by an edit), in every
branch of the handler (validation failure, upload failure, successful
update).  The companion conjunct shows `created_by` is assigned at creation:
an insert (no entry being edited) appends a row with
`created_by = user?.id || null` and `created_at` set at creation time. -/
theorem ledgerHandleSubmit_edit_frame
    (formData : LedgerFormData) (editing : LedgerEntry)
    (user : Option String) (db : List LedgerEntry) (uploadResult : Option String)
    (now : ℤ) (newId : String) :
    (∃ f : LedgerEntry → LedgerEntry,
      (ledgerHandleSubmit formData (some editing) user db uploadResult now newId).db
        = db.map f
      ∧ ∀ e : LedgerEntry,
          (f e).id = e.id ∧ (f e).created_at = e.created_at
            ∧ (f e).created_by = e.created_by)
    ∧ (∀ a : ℚ, formData.amount = some a → 0 < a → formData.imageFile = none →
        ∃ newEntry : LedgerEntry,
          (ledgerHandleSubmit formData none user db uploadResult now newId).db
            = db ++ [newEntry]
          ∧ newEntry.created_by = user ∧ newEntry.created_at = now) := by
  constructor
  · unfold ledgerHandleSubmit
    cases hamt : formData.amount with
    | none =>
      exact ⟨id, by simp, fun e => ⟨rfl, rfl, rfl⟩⟩
    | some a =>
      by_cases hle : a ≤ 0
      · exact ⟨id, by simp [hle], fun e => ⟨rfl, rfl, rfl⟩⟩
      · cases himg : formData.imageFile with
        | some f =>
          cases hup : uploadResult with
          | none => exact ⟨id, by simp [hle], fun e => ⟨rfl, rfl, rfl⟩⟩
          | some url =>
            refine ⟨fun e =>
              if e.id == editing.id then
                { e with student_id := formData.student_id, type := formData.type,
                         amount := ledgerFinalAmount formData.type
                           formData.isAdjustmentNegative a,
                         reference := if formData.reference == "" then none
                           else some formData.reference,
                         image_url := some url }
              else e, by simp [hle, ledgerWrite], fun e => ?_⟩
            by_cases hid : e.id == editing.id <;> simp [hid]
        | none =>
          refine ⟨fun e =>
            if e.id == editing.id then
              { e with student_id := formData.student_id, type := formData.type,
                       amount := ledgerFinalAmount formData.type
                         formData.isAdjustmentNegative a,
                       reference := if formData.reference == "" then none
                         else some formData.reference,
                       image_url := formData.existingImageUrl }
            else e, by simp [hle, ledgerWrite], fun e => ?_⟩
          by_cases hid : e.id == editing.id <;> simp [hid]
  · intro a hamt hpos himg
    unfold ledgerHandleSubmit
    rw [hamt]
    simp [not_le.mpr hpos, himg, ledgerWrite]

/-- Witness for C10: editing the single entry of a concrete table keeps its
`id`, `created_at` and `created_by`. -/
theorem ledgerHandleSubmit_edit_frame_witness :
    ∃ f : LedgerEntry → LedgerEntry,
      (ledgerHandleSubmit
        { student_id := "s2", type := "ADJUSTMENT", amount := some 5, reference := "r",
          isAdjustmentNegative := true, imageFile := none, existingImageUrl := none }
        (some { id := "e1", student_id := "s1", type := "PAYMENT_CONFIRMATION",
                amount := 3, reference := none, image_url := none, created_at := 11,
                created_by := some "creator" })
        (some "editor")
        [{ id := "e1", student_id := "s1", type := "PAYMENT_CONFIRMATION",
           amount := 3, reference := none, image_url := none, created_at := 11,
           created_by := some "creator" }] none 99 "n2").db
        = [{ id := "e1", student_id := "s1", type := "PAYMENT_CONFIRMATION",
             amount := 3, reference := none, image_url := none, created_at := 11,
             created_by := some "creator" }].map f
      ∧ ∀ e : LedgerEntry,
          (f e).id = e.id ∧ (f e).created_at = e.created_at
            ∧ (f e).created_by = e.created_by := by
  have h2 := (ledgerHandleSubmit_edit_frame
    { student_id := "s2", type := "ADJUSTMENT", amount := some 5, reference := "r",
      isAdjustmentNegative := true, imageFile := none, existingImageUrl := none }
    { id := "e1", student_id := "s1", type := "PAYMENT_CONFIRMATION",
      amount := 3, reference := none, image_url := none, created_at := 11,
      created_by := some "creator" }
    (some "editor") [] none 99 "n2").2 5 rfl (by norm_num) rfl
  exact (ledgerHandleSubmit_edit_frame
    { student_id := "s2", type := "ADJUSTMENT", amount := some 5, reference := "r",
      isAdjustmentNegative := true, imageFile := none, existingImageUrl := none }
    { id := "e1", student_id := "s1", type := "PAYMENT_CONFIRMATION",
      amount := 3, reference := none, image_url := none, created_at := 11,
      created_by := some "creator" }
    (some "editor")
    [{ id := "e1", student_id := "s1", type := "PAYMENT_CONFIRMATION",
       amount := 3, reference := none, image_url := none, created_at := 11,
       created_by := some "creator" }] none 99 "n2").1

/-! ## Sessions page (`handleSubmit` / `handleComplete`, i18n version) -/

/-- A row of `public.profiles` (fields the embedded operations read). -/
structure Profile where
  id : String
  is_approved : Bool
  zoom_api_key : Option String
  zoom_api_secret : Option String
  whatsapp_phone_number_id : Option String
  whatsapp_token : Option String
deriving DecidableEq, Repr

/-- JavaScript truthiness of a nullable string column: `null`/`undefined` and
the empty string are falsy. -/
def optTruthy : Option String → Bool
  | none => false
  | some s => !(s == "")

/-- Data returned by the `create-zoom-meeting` edge function. -/
structure ZoomMeeting where
  id : String
  join_url : String
  start_url : String
deriving DecidableEq, Repr

/-- Outcome of `supabase.functions.invoke('create-zoom-meeting', ...)`:
success with a meeting, an error result (`zoomError` non-null), or a thrown
exception (caught by the surrounding `try`/`catch`). -/
inductive ZoomOutcome
  | success (m : ZoomMeeting)
  | errorResult (msg : String)
  | thrown (msg : String)
deriving DecidableEq, Repr

/-- The Sessions page's `formData`.  The two datetime-local fields are
`required` in the form and are embedded as their epoch-millisecond values
(`new Date(...).getTime()`). -/
structure SessionFormData where
  student_id : String
  scheduled_start_at : ℤ
  scheduled_end_at : ℤ
  notes : String
deriving DecidableEq, Repr

/-- `handleSubmit` (Sessions page): reject if the end time is not after the
start time; otherwise, when the signed-in user's profile stores both Zoom
credentials, attempt to create a Zoom meeting — an error result or a thrown
exception leaves `zoomData` null (the catch comment: continue without Zoom if
it fails) — and insert the session with `status: "SCHEDULED"`, spreading
`...zoomData` (absent fields default to SQL `NULL`).  The row id is
database-generated (`newId`); `notes` is `formData.notes || null`. -/
def sessionsHandleSubmit (formData : SessionFormData) (user : Option String)
    (profiles : List Profile) (zoomOutcome : ZoomOutcome)
    (sessions : List Session) (newId : String) : List Session :=
  if formData.scheduled_end_at ≤ formData.scheduled_start_at then sessions
  else
    let zoomData : Option ZoomMeeting :=
      match user with
      | none => none
      | some uid =>
        match profiles.find? (fun p => p.id == uid) with
        | none => none
        | some profile =>
          if optTruthy profile.zoom_api_key && optTruthy profile.zoom_api_secret then
            match zoomOutcome with
            | ZoomOutcome.success m => some m
            | ZoomOutcome.errorResult _ => none
            | ZoomOutcome.thrown _ => none
          else none
    sessions ++
      [{ id := newId, student_id := formData.student_id, status := "SCHEDULED",
         scheduled_start_at := formData.scheduled_start_at,
         scheduled_end_at := formData.scheduled_end_at,
         actual_start_at := none, actual_end_at := none,
         zoom_meeting_id := zoomData.map (fun m => m.id),
         zoom_join_url := zoomData.map (fun m => m.join_url),
         zoom_start_url := zoomData.map (fun m => m.start_url),
         notes := if formData.notes == "" then none else some formData.notes,
         created_by := none,
         whatsapp_notification_status := "NONE", whatsapp_last_error := none }]

/-- C8: for a session-scheduling submission by a signed-in user whose profile
stores both Zoom credentials, if the meeting creation fails — an error result
or a thrown exception — the session row is still inserted, with
`status = "SCHEDULED"` and without any meeting metadata; the failure never
prevents session creation. -/
theorem sessionsHandleSubmit_zoom_failure_degrades
    (formData : SessionFormData) (uid : String) (profiles : List Profile)
    (profile : Profile) (zoomOutcome : ZoomOutcome) (msg : String)
    (sessions : List Session) (newId : String)
    (hvalid : formData.scheduled_start_at < formData.scheduled_end_at)
    (hprof : profiles.find? (fun p => p.id == uid) = some profile)
    (hkey : optTruthy profile.zoom_api_key = true)
    (hsecret : optTruthy profile.zoom_api_secret = true)
    (hfail : zoomOutcome = ZoomOutcome.errorResult msg
             ∨ zoomOutcome = ZoomOutcome.thrown msg) :
    ∃ s : Session,
      sessionsHandleSubmit formData (some uid) profiles zoomOutcome sessions newId
        = sessions ++ [s]
      ∧ s.status = "SCHEDULED" ∧ s.zoom_meeting_id = none
      ∧ s.zoom_join_url = none ∧ s.zoom_start_url = none := by
  refine ⟨{ id := newId, student_id := formData.student_id, status := "SCHEDULED",
            scheduled_start_at := formData.scheduled_start_at,
            scheduled_end_at := formData.scheduled_end_at,
            actual_start_at := none, actual_end_at := none,
            zoom_meeting_id := none, zoom_join_url := none, zoom_start_url := none,
            notes := if formData.notes == "" then none else some formData.notes,
            created_by := none,
            whatsapp_notification_status := "NONE", whatsapp_last_error := none },
    ?_, rfl, rfl, rfl, rfl⟩
  rcases hfail with h | h <;>
    simp [sessionsHandleSubmit, not_le.mpr hvalid, hprof, hkey, hsecret, h]

/-- Witness for C8: a concrete submission where the Zoom call throws still
schedules the session without meeting metadata. -/
theorem sessionsHandleSubmit_zoom_failure_degrades_witness :
    ∃ s : Session,
      sessionsHandleSubmit
        { student_id := "stu", scheduled_start_at := 0, scheduled_end_at := 5400000,
          notes := "" }
        (some "u1")
        [{ id := "u1", is_approved := true, zoom_api_key := some "k",
           zoom_api_secret := some "sec", whatsapp_phone_number_id := none,
           whatsapp_token := none }]
        (ZoomOutcome.thrown "network down") [] "sess1"
        = [] ++ [s]
      ∧ s.status = "SCHEDULED" ∧ s.zoom_meeting_id = none
      ∧ s.zoom_join_url = none ∧ s.zoom_start_url = none :=
  sessionsHandleSubmit_zoom_failure_degrades
    { student_id := "stu", scheduled_start_at := 0, scheduled_end_at := 5400000,
      notes := "" }
    "u1"
    [{ id := "u1", is_approved := true, zoom_api_key := some "k",
       zoom_api_secret := some "sec", whatsapp_phone_number_id := none,
       whatsapp_token := none }]
    { id := "u1", is_approved := true, zoom_api_key := some "k",
      zoom_api_secret := some "sec", whatsapp_phone_number_id := none,
      whatsapp_token := none }
    (ZoomOutcome.thrown "network down") "network down" [] "sess1"
    (by norm_num) (by decide) (by decide) (by decide) (Or.inr rfl)

/-! ### Substring containment (SQL `LIKE '%' || pat || '%'`) -/

/-- `pat` starts `s` (character lists). -/
def charsHavePre (pat s : List Char) : Bool :=
  match pat, s with
  | [], _ => true
  | _ :: _, [] => false
  | a :: as, b :: bs => a == b && charsHavePre as bs

/-- `pat` occurs as a contiguous substring of `s` (character lists). -/
def charsHaveSub (pat s : List Char) : Bool :=
  match s with
  | [] => pat.isEmpty
  | _ :: rest => charsHavePre pat s || charsHaveSub pat rest

/-- SQL `col LIKE '%' || pat || '%'` on a non-NULL column value `s`:
`pat` occurs as a contiguous substring of `s`. -/
def strContainsSub (s pat : String) : Bool :=
  charsHaveSub pat.data s.data

theorem charsHavePre_append_self (p r : List Char) :
    charsHavePre p (p ++ r) = true := by
  induction p with
  | nil => rfl
  | cons a as ih => simp [charsHavePre, ih]

theorem charsHaveSub_of_pre {p s : List Char} (h : charsHavePre p s = true) :
    charsHaveSub p s = true := by
  cases s with
  | nil =>
    cases p with
    | nil => rfl
    | cons a as => simp [charsHavePre] at h
  | cons b bs => simp [charsHaveSub, h]

theorem strContainsSub_append (pat rest : String) :
    strContainsSub (pat ++ rest) pat = true := by
  unfold strContainsSub
  rw [String.data_append]
  exact charsHaveSub_of_pre (charsHavePre_append_self _ _)

/-! ### Row lookup helpers -/

/-- `find?` by a key commutes with a key-preserving row rewrite. -/
theorem find?_map_of_key {α : Type} (key : α → String) (k : String) (f : α → α)
    (hkey : ∀ a, key (f a) = key a) (l : List α) :
    (l.map f).find? (fun a => key a == k)
      = (l.find? (fun a => key a == k)).map f := by
  induction l with
  | nil => rfl
  | cons a rest ih =>
    simp only [List.map_cons, List.find?_cons]
    by_cases h : key a == k
    · simp [hkey, h]
    · simp [hkey, h, ih]

/-! ### Session completion (`handleComplete`, Sessions page, i18n version) -/

/-- Client state that `handleComplete` operates on: the loaded `sessions` and
`students` lists and the `ledger_entries` table. -/
structure SessionsState where
  sessions : List Session
  students : List Student
  ledger_entries : List LedgerEntry
deriving DecidableEq, Repr

/-- The dedup query of `handleComplete`: entries with the session's
`student_id`, of type `SESSION_CHARGE`, whose `reference` matches
`LIKE '%Session <sessionId>%'` (a NULL reference never matches `LIKE`). -/
def sessionChargeDedup (sessionId studentId : String) (e : LedgerEntry) : Bool :=
  e.student_id == studentId && (e.type == "SESSION_CHARGE") &&
    (match e.reference with
     | none => false
     | some r => strContainsSub r ("Session " ++ sessionId))

/-- `handleComplete` (Sessions page, i18n version): find the session in the
loaded list (return unchanged if absent); query for an existing
`SESSION_CHARGE` entry referencing the session; set the session row to
`COMPLETED` with both actual times `now`; then — only if no such entry
existed — look up the student, compute
`durationHours = (end - start) / (1000*60*60)` from the scheduled window and
insert one `SESSION_CHARGE` entry with
`amount = -(durationHours * price_per_hour)`, reference
`Session <id> on <date>` and `created_by` the current user.  `now` is a
millisecond timestamp, `sessionDate` the locale date string, and `newId` the
database-generated row id of the inserted entry. -/
def handleComplete (st : SessionsState) (sessionId : String) (now : ℤ)
    (sessionDate : String) (userId : Option String) (newId : String) :
    SessionsState :=
  match st.sessions.find? (fun s => s.id == sessionId) with
  | none => st
  | some session =>
    let sessionReference := "Session " ++ sessionId ++ " on " ++ sessionDate
    let existingEntries :=
      st.ledger_entries.filter (sessionChargeDedup sessionId session.student_id)
    let sessions1 := st.sessions.map (fun s =>
      if s.id == sessionId then
        { s with status := "COMPLETED", actual_start_at := some now,
                 actual_end_at := some now }
      else s)
    let st1 : SessionsState := { st with sessions := sessions1 }
    if existingEntries.length > 0 then st1
    else
      match st.students.find? (fun s => s.id == session.student_id) with
      | none => st1
      | some student =>
        let durationHours : ℚ :=
          ((session.scheduled_end_at - session.scheduled_start_at : ℤ) : ℚ)
            / (1000 * 60 * 60)
        let chargeAmount := -(durationHours * student.price_per_hour)
        { st1 with ledger_entries := st1.ledger_entries ++
            [{ id := newId, student_id := session.student_id,
               type := "SESSION_CHARGE", amount := chargeAmount,
               reference := some sessionReference, image_url := none,
               created_at := now, created_by := userId }] }

/-- If the dedup query of `handleComplete` returns at least one entry, the
ledger is left untouched (only the session row is updated). -/
theorem handleComplete_no_insert (st2 : SessionsState) (sessionId : String)
    (now : ℤ) (d : String) (u : Option String) (nid : String)
    (h : ∀ session2 : Session,
      st2.sessions.find? (fun s => s.id == sessionId) = some session2 →
      (st2.ledger_entries.filter
        (sessionChargeDedup sessionId session2.student_id)).length > 0) :
    (handleComplete st2 sessionId now d u nid).ledger_entries
      = st2.ledger_entries := by
  unfold handleComplete
  cases hf : st2.sessions.find? (fun s => s.id == sessionId) with
  | none => rfl
  | some session2 =>
    have hlen := h session2 hf
    simp [hlen]

theorem strContainsSub_session_ref (sid d : String) :
    strContainsSub ("Session " ++ sid ++ " on " ++ d) ("Session " ++ sid) = true := by
  have h : "Session " ++ sid ++ " on " ++ d
      = ("Session " ++ sid) ++ (" on " ++ d) := by
    rw [String.append_assoc]
  rw [h]
  exact strContainsSub_append _ _

/-- C1: completing a session whose status is `SCHEDULED` (with its student
loaded and no `SESSION_CHARGE` referencing the session yet) appends exactly
one `SESSION_CHARGE` entry for the session's student, whose amount is
`-(durationHours * price_per_hour)` with `durationHours` derived from the
scheduled window; exactly one entry referencing the session then exists, and
invoking `handleComplete` a second time on the same session leaves the ledger
unchanged (no second charge). -/
theorem handleComplete_single_charge
    (st : SessionsState) (sessionId : String) (now now2 : ℤ)
    (d d2 : String) (u u2 : Option String) (nid nid2 : String)
    (session : Session) (student : Student)
    (hfind : st.sessions.find? (fun s => s.id == sessionId) = some session)
    (hsched : session.status = "SCHEDULED")
    (hstu : st.students.find? (fun s => s.id == session.student_id) = some student)
    (hfresh : st.ledger_entries.filter
      (sessionChargeDedup sessionId session.student_id) = []) :
    ((handleComplete st sessionId now d u nid).ledger_entries
       = st.ledger_entries ++
         [{ id := nid, student_id := session.student_id, type := "SESSION_CHARGE",
            amount := -((((session.scheduled_end_at - session.scheduled_start_at : ℤ) : ℚ)
              / (1000 * 60 * 60)) * student.price_per_hour),
            reference := some ("Session " ++ sessionId ++ " on " ++ d),
            image_url := none, created_at := now, created_by := u }])
    ∧ ((handleComplete st sessionId now d u nid).ledger_entries.filter
         (sessionChargeDedup sessionId session.student_id)).length = 1
    ∧ (handleComplete (handleComplete st sessionId now d u nid)
         sessionId now2 d2 u2 nid2).ledger_entries
        = (handleComplete st sessionId now d u nid).ledger_entries := by
  have hpred : (session.id == sessionId) = true := by
    have h := List.find?_some hfind
    simpa using h
  set E : LedgerEntry :=
    { id := nid, student_id := session.student_id, type := "SESSION_CHARGE",
      amount := -((((session.scheduled_end_at - session.scheduled_start_at : ℤ) : ℚ)
        / (1000 * 60 * 60)) * student.price_per_hour),
      reference := some ("Session " ++ sessionId ++ " on " ++ d),
      image_url := none, created_at := now, created_by := u } with hE
  have hstep : handleComplete st sessionId now d u nid
      = { sessions := st.sessions.map (fun s =>
            if s.id == sessionId then
              { s with status := "COMPLETED", actual_start_at := some now,
                       actual_end_at := some now }
            else s),
          students := st.students,
          ledger_entries := st.ledger_entries ++ [E] } := by
    simp [handleComplete, hfind, hfresh, hstu, hE]
  have hEdedup : sessionChargeDedup sessionId session.student_id E = true := by
    simp [sessionChargeDedup, hE, strContainsSub_session_ref]
  have hfilter2 : (st.ledger_entries ++ [E]).filter
      (sessionChargeDedup sessionId session.student_id) = [E] := by
    rw [List.filter_append, hfresh]
    simp [hEdedup]
  refine ⟨by rw [hstep], by rw [hstep]; simp [hfilter2], ?_⟩
  have hid : ∀ s : Session,
      (if s.id == sessionId then
        { s with status := "COMPLETED", actual_start_at := some now,
                 actual_end_at := some now }
      else s).id = s.id := by
    intro s
    by_cases h : s.id == sessionId <;> simp [h]
  have hfind2 : ((st.sessions.map (fun s =>
      if s.id == sessionId then
        { s with status := "COMPLETED", actual_start_at := some now,
                 actual_end_at := some now }
      else s)).find? (fun s => s.id == sessionId))
      = some { session with
          status := "COMPLETED", actual_start_at := some now,
          actual_end_at := some now } := by
    have hpred2 : session.id = sessionId := by simpa using hpred
    rw [find?_map_of_key (fun s : Session => s.id) sessionId _ hid st.sessions, hfind]
    simp [hpred2]
  rw [hstep]
  apply handleComplete_no_insert
  intro session2 hs2
  rw [hfind2] at hs2
  injection hs2 with hs2
  rw [← hs2]
  simp [hfilter2]

/-- Concrete 1.5-hour `SCHEDULED` session (0 → 5 400 000 ms) used as witness
data. -/
def sampleSession : Session where
  id := "sess1"
  student_id := "stu1"
  status := "SCHEDULED"
  scheduled_start_at := 0
  scheduled_end_at := 5400000
  actual_start_at := none
  actual_end_at := none
  zoom_meeting_id := none
  zoom_join_url := none
  zoom_start_url := none
  notes := none
  created_by := none
  whatsapp_notification_status := "NONE"
  whatsapp_last_error := none

/-- Concrete student at 25.00 per hour used as witness data. -/
def sampleStudent : Student where
  id := "stu1"
  first_name := "Ada"
  last_name := "L"
  price_per_hour := 25
  phone_e164 := none
  is_active := true

/-- Concrete client state for the completion witness: one scheduled session,
its student, an empty ledger. -/
def sampleState : SessionsState where
  sessions := [sampleSession]
  students := [sampleStudent]
  ledger_entries := []

/-- Witness for C1: completing the sample 1.5-hour session at 25.00/hour
appends exactly one `SESSION_CHARGE`, whose amount evaluates to −37.50. -/
theorem handleComplete_single_charge_witness :
    ((handleComplete sampleState "sess1" 77 "11/7/2025" (some "u1") "led1").ledger_entries
      = [] ++
        [{ id := "led1", student_id := "stu1", type := "SESSION_CHARGE",
           amount := -((((5400000 - 0 : ℤ) : ℚ) / (1000 * 60 * 60)) * 25),
           reference := some ("Session " ++ "sess1" ++ " on " ++ "11/7/2025"),
           image_url := none, created_at := 77, created_by := some "u1" }])
    ∧ -((((5400000 - 0 : ℤ) : ℚ) / (1000 * 60 * 60)) * 25) = -(75/2) := by
  constructor
  · have h := (handleComplete_single_charge sampleState "sess1" 77 0 "11/7/2025" ""
      (some "u1") none "led1" "" sampleSession sampleStudent
      (by simp [sampleState, sampleSession, List.find?])
      rfl
      (by simp [sampleState, sampleSession, sampleStudent, List.find?])
      rfl).1
    exact h
  · norm_num

/-! ## WhatsApp reminder dispatch (`send-whatsapp-reminders` edge function) -/

/-- A row of `public.reminder_jobs`.  The function reads and writes `status`
as the strings `PENDING` / `SENT` / `FAILED`. -/
structure ReminderJob where
  id : String
  session_id : String
  scheduled_for : ℤ
  status : String
  channel : String
  last_error : Option String
deriving DecidableEq, Repr

/-- The tables the dispatch function touches. -/
structure RemindersDB where
  reminder_jobs : List ReminderJob
  sessions : List Session
  students : List Student
  profiles : List Profile
deriving DecidableEq, Repr

/-- `admin.from("reminder_jobs").update({status, last_error}).eq("id", ...)`. -/
def updateReminderJob (db : RemindersDB) (jobId : String) (status : String)
    (lastError : Option String) : RemindersDB :=
  { db with reminder_jobs := db.reminder_jobs.map (fun j =>
      if j.id == jobId then { j with status := status, last_error := lastError }
      else j) }

/-- `admin.from("sessions").update({whatsapp_notification_status,
whatsapp_last_error}).eq("id", ...)` (the mirror of the latest outcome). -/
def updateSessionWhatsapp (db : RemindersDB) (sessId : String) (status : String)
    (lastError : Option String) : RemindersDB :=
  { db with sessions := db.sessions.map (fun s =>
      if s.id == sessId then
        { s with whatsapp_notification_status := status,
                 whatsapp_last_error := lastError }
      else s) }

/-- The snapshot produced by the dispatch query: jobs with
`channel = WHATSAPP`, `status = PENDING`, `scheduled_for <= now`, each with
the nested-selected session and student rows as of query time. -/
def dueSnapshot (db : RemindersDB) (now : ℤ) :
    List (ReminderJob × Option (Session × Option Student)) :=
  (db.reminder_jobs.filter (fun j =>
      j.channel == "WHATSAPP" && j.status == "PENDING"
        && decide (j.scheduled_for ≤ now))).map
    (fun j => (j, (db.sessions.find? (fun s => s.id == j.session_id)).map
      (fun s => (s, db.students.find? (fun stu => stu.id == s.student_id)))))

/-- One iteration of the dispatch loop: a missing session, student or phone
number (JS-falsy, so `null` or empty) marks the job `FAILED` with the
corresponding message and continues; otherwise credentials are resolved —
the session creator's per-user WhatsApp pair when both parts are truthy,
else the environment defaults — and if the final pair has a falsy component
the job is marked `FAILED`; otherwise the Graph API POST is attempted
(`sendOk` is the `resp.ok` oracle, `errBody` the persisted
`JSON.stringify(err)` on failure), marking the job `SENT` with the error
cleared, or `FAILED` with the error body, and mirroring the outcome onto the
parent session. -/
def processReminderJob (defaultPhoneNumberId defaultToken : String)
    (sendOk : String → String → String → Bool) (errBody : String)
    (db : RemindersDB)
    (row : ReminderJob × Option (Session × Option Student)) : RemindersDB :=
  match row with
  | (job, none) => updateReminderJob db job.id "FAILED" (some "Session not found")
  | (job, some (_, none)) =>
    updateReminderJob db job.id "FAILED" (some "Student not found")
  | (job, some (sess, some student)) =>
    if !(optTruthy student.phone_e164) then
      updateReminderJob db job.id "FAILED" (some "Missing student phone")
    else
      let creds : String × String :=
        if optTruthy sess.created_by then
          match db.profiles.find? (fun p => p.id == sess.created_by.getD "") with
          | some profile =>
            if optTruthy profile.whatsapp_phone_number_id
                && optTruthy profile.whatsapp_token then
              (profile.whatsapp_phone_number_id.getD "",
               profile.whatsapp_token.getD "")
            else (defaultPhoneNumberId, defaultToken)
          | none => (defaultPhoneNumberId, defaultToken)
        else (defaultPhoneNumberId, defaultToken)
      if creds.1 == "" || creds.2 == "" then
        updateReminderJob db job.id "FAILED" (some "Missing WhatsApp credentials")
      else if sendOk creds.1 creds.2 (student.phone_e164.getD "") then
        updateSessionWhatsapp (updateReminderJob db job.id "SENT" none)
          sess.id "SENT" none
      else
        updateSessionWhatsapp
          (updateReminderJob db job.id "FAILED" (some errBody))
          sess.id "FAILED" (some errBody)

/-- The whole dispatch invocation: query the due snapshot once, then process
each row in order against the threaded database state. -/
def sendWhatsappReminders (db : RemindersDB) (now : ℤ)
    (defaultPhoneNumberId defaultToken : String)
    (sendOk : String → String → String → Bool) (errBody : String) : RemindersDB :=
  (dueSnapshot db now).foldl
    (processReminderJob defaultPhoneNumberId defaultToken sendOk errBody) db

/-- A member of a list whose key column is duplicate-free is exactly what
`find?` by its key returns. -/
theorem find?_eq_of_mem_nodup {α : Type} (key : α → String) (l : List α) (a : α)
    (hmem : a ∈ l) (hnd : (l.map key).Nodup) :
    l.find? (fun x => key x == key a) = some a := by
  induction l with
  | nil => cases hmem
  | cons b t ih =>
    rw [List.map_cons, List.nodup_cons] at hnd
    simp only [List.find?_cons]
    cases hb : key b == key a with
    | true =>
      have hba : key b = key a := by simpa using hb
      rcases List.mem_cons.mp hmem with h | h
      · rw [h]
      · exfalso
        apply hnd.1
        rw [hba]
        exact List.mem_map_of_mem key h
    | false =>
      rcases List.mem_cons.mp hmem with h | h
      · exfalso
        rw [h] at hb
        simp at hb
      · exact ih h hnd.2

/-- Updating one reminder job leaves the rows with any other id untouched. -/
theorem updateReminderJob_find?_other (db : RemindersDB) (jid st : String)
    (err : Option String) (k : String) (hk : k ≠ jid) :
    (updateReminderJob db jid st err).reminder_jobs.find? (fun j => j.id == k)
      = db.reminder_jobs.find? (fun j => j.id == k) := by
  unfold updateReminderJob
  rw [find?_map_of_key (fun j : ReminderJob => j.id) k _
    (fun j => by by_cases h : j.id == jid <;> simp [h]) db.reminder_jobs]
  cases h : db.reminder_jobs.find? (fun j => j.id == k) with
  | none => rfl
  | some j0 =>
    have hj0 : j0.id = k := by
      have := List.find?_some h
      simpa using this
    simp [hj0, hk]

/-- Updating one reminder job rewrites the row carrying that id. -/
theorem updateReminderJob_find?_self (db : RemindersDB) (job : ReminderJob)
    (st : String) (err : Option String)
    (h : db.reminder_jobs.find? (fun j => j.id == job.id) = some job) :
    (updateReminderJob db job.id st err).reminder_jobs.find?
        (fun j => j.id == job.id)
      = some { job with status := st, last_error := err } := by
  unfold updateReminderJob
  rw [find?_map_of_key (fun j : ReminderJob => j.id) job.id _
    (fun j => by by_cases hj : j.id == job.id <;> simp [hj]) db.reminder_jobs, h]
  simp

/-- The session-mirror update does not touch the jobs table. -/
theorem updateSessionWhatsapp_reminder_jobs (db : RemindersDB) (sid st : String)
    (err : Option String) :
    (updateSessionWhatsapp db sid st err).reminder_jobs = db.reminder_jobs := rfl

/-- Processing one snapshot row only rewrites the job row with that row's id. -/
theorem processReminderJob_find?_other (dpn dtok : String)
    (sendOk : String → String → String → Bool) (errBody : String)
    (db : RemindersDB) (row : ReminderJob × Option (Session × Option Student))
    (k : String) (hk : k ≠ row.1.id) :
    (processReminderJob dpn dtok sendOk errBody db row).reminder_jobs.find?
        (fun j => j.id == k)
      = db.reminder_jobs.find? (fun j => j.id == k) := by
  obtain ⟨job, data⟩ := row
  simp only at hk
  match data with
  | none => exact updateReminderJob_find?_other db job.id _ _ k hk
  | some (sess, none) => exact updateReminderJob_find?_other db job.id _ _ k hk
  | some (sess, some student) =>
    simp only [processReminderJob]
    split_ifs with h1 h2 h3 <;>
      (try simp only [updateSessionWhatsapp_reminder_jobs]) <;>
      exact updateReminderJob_find?_other _ job.id _ _ k hk

/-- Folding the dispatch step over rows none of which carry a given job id
leaves that job's row untouched. -/
theorem foldl_process_find?_other (dpn dtok : String)
    (sendOk : String → String → String → Bool) (errBody : String) (k : String) :
    ∀ (L : List (ReminderJob × Option (Session × Option Student)))
      (db1 : RemindersDB), (∀ r ∈ L, k ≠ r.1.id) →
      ((L.foldl (processReminderJob dpn dtok sendOk errBody) db1).reminder_jobs.find?
          (fun j => j.id == k))
        = db1.reminder_jobs.find? (fun j => j.id == k) := by
  intro L
  induction L with
  | nil => intro db1 _; rfl
  | cons r t ih =>
    intro db1 h
    rw [List.foldl_cons, ih _ (fun x hx => h x (List.mem_cons_of_mem r hx)),
      processReminderJob_find?_other dpn dtok sendOk errBody db1 r k
        (h r (List.mem_cons_self r t))]

/-- C5: one invocation of the reminder dispatch transitions every due
`PENDING` WhatsApp job whose student has no (JS-falsy) phone number to
`FAILED` with the non-empty stored error `Missing student phone`; the job is
not transitioned to `SENT`.  (`Nodup` on ids reflects the primary key.) -/
theorem sendWhatsappReminders_missing_phone
    (db : RemindersDB) (now : ℤ) (dpn dtok : String)
    (sendOk : String → String → String → Bool) (errBody : String)
    (job : ReminderJob) (sess : Session) (student : Student)
    (hmem : job ∈ db.reminder_jobs)
    (hnodup : (db.reminder_jobs.map (fun j => j.id)).Nodup)
    (hstatus : job.status = "PENDING")
    (hchannel : job.channel = "WHATSAPP")
    (hdue : job.scheduled_for ≤ now)
    (hsess : db.sessions.find? (fun s => s.id == job.session_id) = some sess)
    (hstu : db.students.find? (fun stu => stu.id == sess.student_id) = some student)
    (hphone : optTruthy student.phone_e164 = false) :
    ((sendWhatsappReminders db now dpn dtok sendOk errBody).reminder_jobs.find?
        (fun j => j.id == job.id))
      = some { job with status := "FAILED",
                        last_error := some "Missing student phone" }
    ∧ ({ job with status := "FAILED",
                  last_error := some "Missing student phone" } : ReminderJob).status
        ≠ "SENT"
    ∧ (∃ e : String,
        ({ job with status := "FAILED",
                    last_error := some "Missing student phone" } : ReminderJob).last_error
          = some e ∧ e ≠ "") := by
  refine ⟨?_, by show "FAILED" ≠ "SENT"; decide, "Missing student phone", rfl,
    by decide⟩
  have hdf : job ∈ db.reminder_jobs.filter (fun j =>
      j.channel == "WHATSAPP" && j.status == "PENDING"
        && decide (j.scheduled_for ≤ now)) := by
    apply List.mem_filter.mpr
    refine ⟨hmem, ?_⟩
    simp [hchannel, hstatus, hdue]
  obtain ⟨L1, L2, hsplit⟩ := List.append_of_mem hdf
  have hsnodup : ((db.reminder_jobs.filter (fun j =>
      j.channel == "WHATSAPP" && j.status == "PENDING"
        && decide (j.scheduled_for ≤ now))).map (fun j => j.id)).Nodup :=
    hnodup.sublist (List.Sublist.map (fun j : ReminderJob => j.id)
      (List.filter_sublist db.reminder_jobs))
  rw [hsplit, List.map_append, List.map_cons] at hsnodup
  have hdisj := List.nodup_append.mp hsnodup
  have h1 : ∀ x ∈ L1, job.id ≠ x.id := by
    intro x hx heq
    have hxin : x.id ∈ L1.map (fun j => j.id) := List.mem_map_of_mem _ hx
    rw [← heq] at hxin
    exact hdisj.2.2 hxin (List.mem_cons_self _ _)
  have h2 : ∀ x ∈ L2, job.id ≠ x.id := by
    intro x hx heq
    have hnd2 := hdisj.2.1
    rw [List.nodup_cons] at hnd2
    apply hnd2.1
    rw [heq]
    exact List.mem_map_of_mem _ hx
  have hsend : sendWhatsappReminders db now dpn dtok sendOk errBody
      = ((L1.map (fun j => (j, (db.sessions.find? (fun s => s.id == j.session_id)).map
            (fun s => (s, db.students.find? (fun stu => stu.id == s.student_id))))))
          ++ (job, (db.sessions.find? (fun s => s.id == job.session_id)).map
              (fun s => (s, db.students.find? (fun stu => stu.id == s.student_id))))
            :: (L2.map (fun j => (j, (db.sessions.find? (fun s => s.id == j.session_id)).map
              (fun s => (s, db.students.find? (fun stu => stu.id == s.student_id))))))).foldl
          (processReminderJob dpn dtok sendOk errBody) db := by
    unfold sendWhatsappReminders dueSnapshot
    rw [hsplit, List.map_append, List.map_cons]
  rw [hsend, List.foldl_append, List.foldl_cons]
  have hfind1 : ((L1.map (fun j => (j, (db.sessions.find? (fun s => s.id == j.session_id)).map
      (fun s => (s, db.students.find? (fun stu => stu.id == s.student_id)))))).foldl
        (processReminderJob dpn dtok sendOk errBody) db).reminder_jobs.find?
        (fun j => j.id == job.id)
      = some job := by
    rw [foldl_process_find?_other dpn dtok sendOk errBody job.id _ db ?h1m]
    case h1m =>
      intro r hr
      obtain ⟨x, hx, rfl⟩ := List.mem_map.mp hr
      exact h1 x hx
    exact find?_eq_of_mem_nodup (fun j : ReminderJob => j.id) db.reminder_jobs job
      hmem hnodup
  have hproc : processReminderJob dpn dtok sendOk errBody
      ((L1.map (fun j => (j, (db.sessions.find? (fun s => s.id == j.session_id)).map
        (fun s => (s, db.students.find? (fun stu => stu.id == s.student_id)))))).foldl
          (processReminderJob dpn dtok sendOk errBody) db)
      (job, (db.sessions.find? (fun s => s.id == job.session_id)).map
        (fun s => (s, db.students.find? (fun stu => stu.id == s.student_id))))
      = updateReminderJob
          ((L1.map (fun j => (j, (db.sessions.find? (fun s => s.id == j.session_id)).map
            (fun s => (s, db.students.find? (fun stu => stu.id == s.student_id)))))).foldl
              (processReminderJob dpn dtok sendOk errBody) db)
          job.id "FAILED" (some "Missing student phone") := by
    rw [hsess]
    simp [processReminderJob, hstu, hphone]
  rw [hproc,
    foldl_process_find?_other dpn dtok sendOk errBody job.id _ _
      (fun r hr => by
        obtain ⟨x, hx, rfl⟩ := List.mem_map.mp hr
        exact h2 x hx)]
  exact updateReminderJob_find?_self _ job "FAILED" (some "Missing student phone")
    hfind1

/-- Concrete due reminder job for the dispatch witness. -/
def sampleReminderJob : ReminderJob where
  id := "job1"
  session_id := "sess1"
  scheduled_for := 100
  channel := "WHATSAPP"
  status := "PENDING"
  last_error := none

/-- Concrete database for the dispatch witness: one due WhatsApp job whose
student has no phone number. -/
def sampleRemindersDB : RemindersDB where
  reminder_jobs := [sampleReminderJob]
  sessions := [sampleSession]
  students := [sampleStudent]
  profiles := []

/-- Witness for C5: the sample job is marked `FAILED` with the non-empty
error `Missing student phone` and is not `SENT`. -/
theorem sendWhatsappReminders_missing_phone_witness :
    ((sendWhatsappReminders sampleRemindersDB 100 "dpn" "dtok"
        (fun _ _ _ => true) "err").reminder_jobs.find?
        (fun j => j.id == sampleReminderJob.id))
      = some { sampleReminderJob with
          status := "FAILED", last_error := some "Missing student phone" }
    ∧ ({ sampleReminderJob with
          status := "FAILED",
          last_error := some "Missing student phone" } : ReminderJob).status
        ≠ "SENT"
    ∧ (∃ e : String,
        ({ sampleReminderJob with
            status := "FAILED",
            last_error := some "Missing student phone" } : ReminderJob).last_error
          = some e ∧ e ≠ "") :=
  sendWhatsappReminders_missing_phone sampleRemindersDB 100 "dpn" "dtok"
    (fun _ _ _ => true) "err" sampleReminderJob sampleSession sampleStudent
    (by decide) (by decide) rfl rfl (by decide) rfl rfl rfl

/-! ## Approval gating (Layout session-storage cache, PendingApproval poll) -/

/-- JS `String.prototype.startsWith` on code points: `pat` is a prefix of
`s`. -/
def strStartsWith (s pat : String) : Bool :=
  charsHavePre pat.data s.data

theorem strStartsWith_append (pat rest : String) :
    strStartsWith (pat ++ rest) pat = true := by
  unfold strStartsWith
  rw [String.data_append]
  exact charsHavePre_append_self _ _

/-- `sessionStorage.getItem`: the first binding of the key, if any. -/
def getItem (storage : List (String × String)) (key : String) : Option String :=
  (storage.find? (fun kv => kv.1 == key)).map (fun kv => kv.2)

/-- `sessionStorage.setItem`: replace the existing binding of the key or
append a new one. -/
def setItem : List (String × String) → String → String → List (String × String)
  | [], k, v => [(k, v)]
  | kv :: rest, k, v => if kv.1 == k then (k, v) :: rest else kv :: setItem rest k v

/-- `getApprovalFromStorage` (Layout): read `approval_<userId>`; `null` maps
to `null`, otherwise the flag is `stored === "true"`. -/
def getApprovalFromStorage (storage : List (String × String)) (userId : String) :
    Option Bool :=
  match getItem storage ("approval_" ++ userId) with
  | none => none
  | some stored => some (stored == "true")

/-- `setApprovalInStorage` (Layout):
`sessionStorage.setItem("approval_" + userId, approved.toString())`. -/
def setApprovalInStorage (storage : List (String × String)) (userId : String)
    (approved : Bool) : List (String × String) :=
  setItem storage ("approval_" ++ userId) (toString approved)

/-- `hasAnyCachedApproval` (Layout): scan every session-storage key; any key
prefixed `approval_` — regardless of which user id it names — whose value is
`"true"` counts. -/
def hasAnyCachedApproval (storage : List (String × String)) : Bool :=
  storage.any (fun kv => strStartsWith kv.1 "approval_" && kv.2 == "true")

/-- `hasUserCachedApproval` (Layout):
`user ? getApprovalFromStorage(user.id) === true : false`. -/
def hasUserCachedApproval (storage : List (String × String))
    (user : Option String) : Bool :=
  match user with
  | some uid => getApprovalFromStorage storage uid == some true
  | none => false

/-- The cache-restore effect of the Layout (guarded by
`isApproved === null && hasAnyApproval` where
`hasAnyApproval = hasUserCachedApproval || hasAnyCachedApproval()`): when the
scan finds any `approval_*` key storing `"true"`, `setIsApproved(true)` fires
— whichever user the key belongs to. -/
def restoreApprovalFromCache (storage : List (String × String))
    (user : Option String) (isApproved : Option Bool) : Option Bool :=
  if isApproved == none
      && (hasUserCachedApproval storage user || hasAnyCachedApproval storage) then
    (if hasAnyCachedApproval storage then some true else isApproved)
  else isApproved

/-- C9: the approval-status fallback scans session storage for any
`approval_*` key regardless of user id: when some other user's key stores
`"true"` while the current user's own state is unresolved (no own cache
entry, `isApproved` null), the Layout's restore effect marks the current
user approved; with no cached approvals at all it stays unresolved — so the
approval decision observed by one user is not independent of another user's
cached flag. -/
theorem hasAnyCachedApproval_cross_user
    (storage : List (String × String)) (uid other : String)
    (hmem : ("approval_" ++ other, "true") ∈ storage)
    (hneq : other ≠ uid)
    (hown : getItem storage ("approval_" ++ uid) = none) :
    hasAnyCachedApproval storage = true
    ∧ restoreApprovalFromCache storage (some uid) none = some true
    ∧ restoreApprovalFromCache [] (some uid) none = none := by
  have hany : hasAnyCachedApproval storage = true := by
    unfold hasAnyCachedApproval
    rw [List.any_eq_true]
    refine ⟨("approval_" ++ other, "true"), hmem, ?_⟩
    simp [strStartsWith_append]
  refine ⟨hany, ?_, rfl⟩
  unfold restoreApprovalFromCache
  simp [hany]

/-- Witness for C9: a storage holding only `approval_alice = "true"` makes
the restore effect approve user `bob`, whose own key is absent. -/
theorem hasAnyCachedApproval_cross_user_witness :
    hasAnyCachedApproval [("approval_" ++ "alice", "true")] = true
    ∧ restoreApprovalFromCache [("approval_" ++ "alice", "true")]
        (some "bob") none = some true
    ∧ restoreApprovalFromCache [] (some "bob") none = none :=
  hasAnyCachedApproval_cross_user [("approval_" ++ "alice", "true")] "bob" "alice"
    (List.mem_singleton.mpr rfl) (by decide) (by decide)

/-- Client state seen by the approval flow: the session-storage cache, the
`isApproved` React state, and the current route. -/
structure ApprovalClientState where
  storage : List (String × String)
  isApproved : Option Bool
  pathname : String
deriving DecidableEq, Repr

/-- `checkApproval` (Layout): use the cached own-key approval when present
(navigating to the pending view when it is `false`); otherwise resolve the
flag from the `profiles` query — `dbIsApproved = none` models a query error,
a timeout, or a missing profile row, all of which the code treats as
`approved = false` (also covering `profile?.is_approved ?? false`) — cache
the outcome, and navigate: an unapproved user on any other route goes to
`/pending-approval`, an approved user sitting on `/pending-approval` goes to
`/dashboard`. -/
def checkApproval (st : ApprovalClientState) (uid : String)
    (dbIsApproved : Option Bool) : ApprovalClientState :=
  match getApprovalFromStorage st.storage uid with
  | some cached =>
    { st with
        isApproved := some cached,
        pathname :=
          if !cached && st.pathname != "/pending-approval" then "/pending-approval"
          else st.pathname }
  | none =>
    let approved := dbIsApproved.getD false
    { storage := setApprovalInStorage st.storage uid approved,
      isApproved := some approved,
      pathname :=
        if !approved then
          (if st.pathname != "/pending-approval" then "/pending-approval"
           else st.pathname)
        else
          (if st.pathname == "/pending-approval" then "/dashboard"
           else st.pathname) }

/-- The `checkApproval` of the PendingApproval page, run once on mount and
then every 5 seconds by `setInterval`: a query error or missing profile does
nothing; an approved flag writes `approval_<uid> = "true"` into session
storage and sets `window.location.href = "/dashboard"`; an unapproved flag
leaves the page polling. -/
def pendingApprovalPoll (st : ApprovalClientState) (uid : String)
    (dbResult : Option Bool) : ApprovalClientState :=
  match dbResult with
  | none => st
  | some approved =>
    if approved then
      { st with
          storage := setItem st.storage ("approval_" ++ uid) "true",
          pathname := "/dashboard" }
    else st

/-- `setInterval(checkApproval, 5000)` on the PendingApproval page. -/
def POLL_INTERVAL_MS : ℕ := 5000

/-- The earliest scheduled poll tick at or after time `t`, for a page mounted
at time `mount` (ticks at `mount + 5000·k`). -/
def nextPollTime (mount t : ℕ) : ℕ :=
  mount + POLL_INTERVAL_MS * ((t - mount + (POLL_INTERVAL_MS - 1)) / POLL_INTERVAL_MS)

theorem getItem_setItem (k v : String) :
    ∀ l : List (String × String), getItem (setItem l k v) k = some v := by
  intro l
  induction l with
  | nil => simp [setItem, getItem, List.find?]
  | cons kv rest ih =>
    simp only [setItem]
    by_cases h : kv.1 = k
    · simp [h, getItem, List.find?]
    · have hb : (kv.1 == k) = false := beq_eq_false_iff_ne.mpr h
      simpa [hb, getItem, List.find?] using ih

theorem getApprovalFromStorage_setItem_true (storage : List (String × String))
    (uid : String) :
    getApprovalFromStorage (setItem storage ("approval_" ++ uid) "true") uid
      = some true := by
  unfold getApprovalFromStorage
  rw [getItem_setItem]
  rfl

/-- C4: for a user whose approval flag is false (and whose client has no
stale `true` cache, as in the new-account scenario), the Layout check on any
authenticated route navigates to `/pending-approval`; after the
administrator flips the flag, the next PendingApproval poll tick happens at
most one 5-second interval after the flip, and that poll — observing
`is_approved = true` — caches the approval and redirects to `/dashboard`;
a subsequent Layout check with the cached approval stays on `/dashboard`. -/
theorem approval_gate_redirects_and_next_poll
    (storage : List (String × String)) (uid : String) (p : String)
    (mount t : ℕ)
    (hauth : p ≠ "/pending-approval")
    (hcache : getApprovalFromStorage storage uid ≠ some true)
    (hmt : mount ≤ t) :
    (checkApproval ⟨storage, none, p⟩ uid (some false)).pathname
        = "/pending-approval"
    ∧ (t ≤ nextPollTime mount t ∧ nextPollTime mount t ≤ t + POLL_INTERVAL_MS)
    ∧ (∀ st2 : ApprovalClientState,
        (pendingApprovalPoll st2 uid (some true)).pathname = "/dashboard"
        ∧ getApprovalFromStorage (pendingApprovalPoll st2 uid (some true)).storage
            uid = some true)
    ∧ (∀ (storage2 : List (String × String)) (db : Option Bool),
        getApprovalFromStorage storage2 uid = some true →
        (checkApproval ⟨storage2, none, "/dashboard"⟩ uid db).pathname
          = "/dashboard") := by
  have hbne : (p != "/pending-approval") = true := by
    simp [bne_iff_ne]
    exact hauth
  refine ⟨?_, ?_, ?_, ?_⟩
  · unfold checkApproval
    cases hc : getApprovalFromStorage storage uid with
    | none => simp [hbne]
    | some b =>
      cases b with
      | true => exact absurd hc hcache
      | false => simp [hbne]
  · unfold nextPollTime POLL_INTERVAL_MS
    have hdm := Nat.div_add_mod (t - mount + 4999) 5000
    have hmod : (t - mount + 4999) % 5000 < 5000 := Nat.mod_lt _ (by norm_num)
    omega
  · intro st2
    refine ⟨rfl, ?_⟩
    show getApprovalFromStorage (setItem st2.storage ("approval_" ++ uid) "true") uid
      = some true
    exact getApprovalFromStorage_setItem_true st2.storage uid
  · intro storage2 db hc2
    unfold checkApproval
    rw [hc2]
    simp

/-- Witness for C4: own flag cached `false`, a navigation to `/students`, a
flip at `t = 7300` ms for a page mounted at `0` (next tick at 10000 ms). -/
theorem approval_gate_redirects_and_next_poll_witness :
    ((checkApproval ⟨[("approval_" ++ "bob", "false")], none, "/students"⟩
        "bob" (some false)).pathname = "/pending-approval")
    ∧ (7300 ≤ nextPollTime 0 7300 ∧ nextPollTime 0 7300 ≤ 7300 + POLL_INTERVAL_MS)
    ∧ (∀ st2 : ApprovalClientState,
        (pendingApprovalPoll st2 "bob" (some true)).pathname = "/dashboard"
        ∧ getApprovalFromStorage (pendingApprovalPoll st2 "bob" (some true)).storage
            "bob" = some true)
    ∧ (∀ (storage2 : List (String × String)) (db : Option Bool),
        getApprovalFromStorage storage2 "bob" = some true →
        (checkApproval ⟨storage2, none, "/dashboard"⟩ "bob" db).pathname
          = "/dashboard") :=
  approval_gate_redirects_and_next_poll [("approval_" ++ "bob", "false")] "bob"
    "/students" 0 7300 (by decide) (by decide) (by decide)
